import Mathlib

/-!
Verification development for the trend/aggregation engine of the
textile-quality dashboard frontend.

The engine lives in two places in the source:
 * the search/grouped-report engine (`SearchTab.tsx`: `groupData`, the
   `REPORT_COLUMNS` finalizer table), and
 * the trend engine (`TrendTab`: `calculateTrend` / `calculateFinal`),
   whose output is rendered by `TrendView.tsx` (`renderRows`, the
   percent-change column) and exported by `LiveReport.tsx` (`downloadPDF`).
The machine-wise live rollup is `getMachineWiseData` (`utils.ts`).

JavaScript numbers are modelled by exact rationals; the value `NaN`
(which arises from `Number` coercion of non-numeric strings) is modelled
by `Option ℚ` with `none` standing for `NaN`.  JavaScript field values
(which may be numbers, strings, `undefined` or `null`) are modelled by
the inductive `JSVal`; `null` behaves like `undefined` in every code
path treated here and both are modelled by `JSVal.undef`.
-/

/-- A JavaScript record-field value: a (finite, non-NaN) number, a string,
or `undefined`/`null`. -/
inductive JSVal where
  | num : ℚ → JSVal
  | str : String → JSVal
  | undef : JSVal
deriving DecidableEq, Repr

/-- A JavaScript number that may be `NaN`: `none` models `NaN`. -/
abbrev JNum := Option ℚ

/-- JavaScript truthiness of a `JSVal`: `0`, `""` and `undefined`/`null`
are falsy, everything else truthy. -/
def jsTruthy : JSVal → Bool
  | JSVal.num q => decide (q ≠ 0)
  | JSVal.str s => decide (s ≠ "")
  | JSVal.undef => false

/-- Decimal rendering of a rational that is an integer; non-integers keep
the `num/den` rendering (such values never reach the `toString` call sites
exercised here, whose sums are integer-valued). -/
def ratToString (q : ℚ) : String :=
  if q.den = 1 then toString q.num else toString q

/-- JavaScript `String(v)` coercion: `undefined` renders as `"undefined"`. -/
def jsToString : JSVal → String
  | JSVal.num q => ratToString q
  | JSVal.str s => s
  | JSVal.undef => "undefined"

/-- JavaScript `v || w` (returns `w` when `v` is falsy). -/
def jsOr (v w : JSVal) : JSVal :=
  if jsTruthy v then v else w

/-- The numeric value of a run of decimal digits. -/
def digitsVal (l : List Char) : ℕ :=
  l.foldl (fun n c => 10 * n + (c.toNat - 48)) 0

/-- Parse an unsigned decimal numeral `digits[.digits]`, `.digits` or
`digits.`; `none` models `NaN`. -/
def parseUnsigned (cs : List Char) : Option ℚ :=
  let p := cs.span Char.isDigit
  match p.2 with
  | [] => if p.1.isEmpty then none else some ((digitsVal p.1 : ℕ) : ℚ)
  | '.' :: fs =>
      let q := fs.span Char.isDigit
      if q.2.isEmpty && !(p.1.isEmpty && q.1.isEmpty) then
        some (((digitsVal p.1 : ℕ) : ℚ) + ((digitsVal q.1 : ℕ) : ℚ) / (10 : ℚ) ^ q.1.length)
      else none
  | _ => none

/-- JavaScript `Number(string)` on the plain decimal numerals produced and
consumed by this code base (finalizer outputs and sentinel strings):
the empty/whitespace string is `0`, an optional sign precedes the digits,
anything else is `NaN` (`none`).  (`"Infinity"` literals never occur here.) -/
def jsParseNumber (s : String) : Option ℚ :=
  let cs := ((s.data.dropWhile (· = ' ')).reverse.dropWhile (· = ' ')).reverse
  match cs with
  | [] => some 0
  | '-' :: t => (parseUnsigned t).map (fun q => -q)
  | '+' :: t => parseUnsigned t
  | t => parseUnsigned t

/-- JavaScript `Number(v)` coercion of a field value. -/
def jsNumber : JSVal → JNum
  | JSVal.num q => some q
  | JSVal.str s => jsParseNumber s
  | JSVal.undef => none

/-- JavaScript `Number(v) || 0`: `NaN` (and `0` itself) collapse to `0`. -/
def numOr0 (v : JSVal) : ℚ :=
  (jsNumber v).getD 0

/-- The value of the guard chain testing typeof number, else 0
(`typeof v === "number" ? v : 0` up to quoting). -/
def typedNum : JSVal → ℚ
  | JSVal.num q => q
  | _ => 0

/-- NaN-propagating addition of JavaScript numbers. -/
def jsAdd (a b : JNum) : JNum :=
  match a, b with
  | some x, some y => some (x + y)
  | _, _ => none

/-- NaN-propagating multiplication of JavaScript numbers. -/
def jsMul (a b : JNum) : JNum :=
  match a, b with
  | some x, some y => some (x * y)
  | _, _ => none

/-- NaN-propagating division of JavaScript numbers.  Division by zero is
mapped to `none`; every division in the embedded code is guarded by a
strict positivity test on the denominator, so this case is never taken. -/
def jsDiv (a b : JNum) : JNum :=
  match a, b with
  | some x, some y => if y = 0 then none else some (x / y)
  | _, _ => none

/-- The test `v > 0` on a JavaScript number (`NaN > 0` is false). -/
def jsGtZero : JNum → Bool
  | some q => decide (0 < q)
  | none => false

/-- Left-pad a string with zeros to the given length. -/
def padZeros (k : ℕ) (s : String) : String :=
  if s.length < k then String.mk (List.replicate (k - s.length) '0') ++ s else s

/-- JavaScript `toFixed` for a non-negative rational: the numerator is the integer
closest to `x·10^f`, ties resolved upward, per the ECMAScript algorithm. -/
def toFixedPos (f : ℕ) (x : ℚ) : String :=
  let n : ℤ := Rat.floor (x * (10 : ℚ) ^ f + 1 / 2)
  if f = 0 then toString n
  else
    let tp : ℤ := (10 : ℤ) ^ f
    toString (n / tp) ++ "." ++ padZeros f (toString (n % tp))

/-- JavaScript `x.toFixed(f)` on an exact rational. -/
def toFixedQ (f : ℕ) (x : ℚ) : String :=
  if x < 0 then "-" ++ toFixedPos f (-x) else toFixedPos f x

/-- JavaScript `toFixed` on a possibly-NaN number: NaN renders as `"NaN"`. -/
def jsToFixed (f : ℕ) : JNum → String
  | some q => toFixedQ f q
  | none => "NaN"

/-- JavaScript `Number.prototype.toString` on a possibly-NaN number. -/
def jsNumToString : JNum → String
  | some q => ratToString q
  | none => "NaN"

/-- Code-point comparison of character lists (the order the JavaScript
default `Array.prototype.sort` uses on the ASCII strings occurring here). -/
def charListLt : List Char → List Char → Bool
  | [], [] => false
  | [], _ :: _ => true
  | _ :: _, [] => false
  | a :: as, b :: bs =>
      if a.toNat < b.toNat then true
      else if b.toNat < a.toNat then false
      else charListLt as bs

/-- Strict comparison of strings by code points. -/
def strLtb (a b : String) : Bool :=
  charListLt a.data b.data

/-- Stable insertion of an element into a list sorted by `le`. -/
def insertLe {α : Type} (le : α → α → Bool) (a : α) : List α → List α
  | [] => [a]
  | b :: t => if le a b then a :: b :: t else b :: insertLe le a t

/-- Stable insertion sort by `le` (models stable `Array.prototype.sort`). -/
def sortByLe {α : Type} (le : α → α → Bool) (l : List α) : List α :=
  l.foldr (insertLe le) []

/-- The JavaScript default lexicographic `Array.prototype.sort` on strings. -/
def jsSortStrings (l : List String) : List String :=
  sortByLe (fun a b => !(strLtb b a)) l

/-- Numeric value of a digit run parsed inside natural comparison. -/
def natRunVal (l : List Char) : ℕ :=
  digitsVal l

/-- Fuel-driven natural (numeric-aware, case-insensitive) comparison of
character lists, modelling `localeCompare(..., {numeric: true,
sensitivity base)` on the alphanumeric labels occurring here.  The
fuel only needs to exceed the total length of the two lists. -/
def natCmpAux : ℕ → List Char → List Char → Ordering
  | 0, _, _ => Ordering.eq
  | _ + 1, [], [] => Ordering.eq
  | _ + 1, [], _ :: _ => Ordering.lt
  | _ + 1, _ :: _, [] => Ordering.gt
  | fuel + 1, a :: as, b :: bs =>
      if a.isDigit && b.isDigit then
        let pa := (a :: as).span Char.isDigit
        let pb := (b :: bs).span Char.isDigit
        let na := natRunVal pa.1
        let nb := natRunVal pb.1
        if na < nb then Ordering.lt
        else if nb < na then Ordering.gt
        else natCmpAux fuel pa.2 pb.2
      else
        let ca := a.toLower
        let cb := b.toLower
        if ca.toNat < cb.toNat then Ordering.lt
        else if cb.toNat < ca.toNat then Ordering.gt
        else natCmpAux fuel as bs

/-- Natural comparison of strings (`"M2"` precedes `"M10"`). -/
def naturalCompare (x y : String) : Ordering :=
  natCmpAux (x.length + y.length + 1) x.data y.data

/-- Ascending sort by natural comparison. -/
def naturalSortBy {α : Type} (key : α → String) (l : List α) : List α :=
  sortByLe (fun a b => naturalCompare (key a) (key b) ≠ Ordering.gt) l

/-- A calendar date as decoded by a successfully parsed timestamp
(`getFullYear`/`getMonth()+1`/`getDate` components; months 1-based). -/
structure SDate where
  year : ℕ
  month : ℕ
  day : ℕ
deriving DecidableEq, Repr

/-- The result of `new Date(shiftStartTime)`: either a valid calendar date
or an invalid date (`isNaN(d.getTime())`). -/
inductive Timestamp where
  | valid : SDate → Timestamp
  | invalid : Timestamp
deriving DecidableEq, Repr

/-- A flat production record (`LongTermDataRecord`).  The five categorical
dimensions and the timestamp are explicit; every numeric metric field is
reached by name through `fields` (absent fields are `JSVal.undef`). -/
structure LongTermDataRecord where
  ShiftStartTime : Timestamp
  MillUnit : JSVal
  ArticleName : JSVal
  ArticleNumber : JSVal
  LotID : JSVal
  MachineName : JSVal
  fields : String → JSVal

/-- The six grouping choices of the search/grouped report (`groupBy`). -/
inductive GroupByField where
  | MillUnit | ArticleName | ArticleNumber | MachineName | LotID | ShiftStartTime
deriving DecidableEq, Repr

/-- The time granularity of the search/grouped report (`reportType`). -/
inductive ReportType where
  | daily | weekly | monthly
deriving DecidableEq, Repr

/-- Dynamic lookup `r[dim]` of a categorical dimension (the
`ShiftStartTime` case is never consulted by callers, which treat the
timestamp specially, and yields `undefined`). -/
def dimOf (r : LongTermDataRecord) : GroupByField → JSVal
  | GroupByField.MillUnit => r.MillUnit
  | GroupByField.ArticleName => r.ArticleName
  | GroupByField.ArticleNumber => r.ArticleNumber
  | GroupByField.MachineName => r.MachineName
  | GroupByField.LotID => r.LotID
  | GroupByField.ShiftStartTime => JSVal.undef

/-- The group-label fallback of the search engine:
`String(v OR "N/A")` with OR the JavaScript or-else operator. -/
def jsKeyOrNA (v : JSVal) : String :=
  if jsTruthy v then jsToString v else "N/A"

/-- The label fallback of the trend engine: the value when truthy, else
the fallback, coerced to a string. -/
def labelOr (v : JSVal) (fallback : String) : String :=
  if jsTruthy v then jsToString v else fallback

/-- Fixed day-of-month week buckets of the weekly report
(the conditional chain `d <= 7, d <= 14, d <= 21, d <= 28, else` giving
W1 to W5). -/
def weekBucket (day : ℕ) : String :=
  if day ≤ 7 then "W1"
  else if day ≤ 14 then "W2"
  else if day ≤ 21 then "W3"
  else if day ≤ 28 then "W4"
  else "W5"

/-- JavaScript `Date.prototype.toLocaleDateString` on a valid date, in the
day/month/year shape the date-sort comparator of the report assumes. -/
def localeDateString (d : SDate) : String :=
  Nat.repr d.day ++ "/" ++ Nat.repr d.month ++ "/" ++ Nat.repr d.year

/-- The group key of a record in the search engine (`groupData`):
`String` of the dimension value with fallback `"N/A"`, overridden for
time grouping by the
daily/weekly/monthly bucket key.  An invalid timestamp yields the keys
JavaScript produces from an invalid `Date` (`toLocaleDateString()` is
`"Invalid Date"`; `getDate()`/`getMonth()`/`getFullYear()` are `NaN`, so
every `d <= c` comparison is false and `${NaN}` renders as `"NaN"`). -/
def searchGroupKey (gb : GroupByField) (rt : ReportType) (r : LongTermDataRecord) : String :=
  match gb with
  | GroupByField.ShiftStartTime =>
      match r.ShiftStartTime with
      | Timestamp.valid d =>
          match rt with
          | ReportType.daily => localeDateString d
          | ReportType.weekly => Nat.repr d.month ++ "-" ++ weekBucket d.day
          | ReportType.monthly => Nat.repr d.year ++ "-" ++ padZeros 2 (Nat.repr d.month)
      | Timestamp.invalid =>
          match rt with
          | ReportType.daily => "Invalid Date"
          | ReportType.weekly => "NaN-W5"
          | ReportType.monthly => "NaN-NaN"
  | gb => jsKeyOrNA (dimOf r gb)

/-- The metric type tag of a report column. -/
inductive ColType where
  | perLength | simpleAvg | customTotalIPI | customTotalHSIPI
deriving DecidableEq, Repr

/-- One entry of the `REPORT_COLUMNS` table. -/
structure ReportColumn where
  title : String
  field : Option String
  type : ColType
deriving DecidableEq, Repr

/-- The `REPORT_COLUMNS` table of the search report (`types.ts`). -/
def REPORT_COLUMNS : List ReportColumn :=
  [⟨"YF", some "YarnFaults", ColType.perLength⟩,
   ⟨"N", some "NCuts", ColType.perLength⟩,
   ⟨"S", some "SCuts", ColType.perLength⟩,
   ⟨"L", some "LCuts", ColType.perLength⟩,
   ⟨"T", some "TCuts", ColType.perLength⟩,
   ⟨"FD", some "FDCuts", ColType.perLength⟩,
   ⟨"PP", some "PPCuts", ColType.perLength⟩,
   ⟨"Cp", some "CpCuts", ColType.perLength⟩,
   ⟨"CCp", some "CCpCuts", ColType.perLength⟩,
   ⟨"Cm", some "CmCuts", ColType.perLength⟩,
   ⟨"CCm", some "CCmCuts", ColType.perLength⟩,
   ⟨"CV%", some "CVAvg", ColType.simpleAvg⟩,
   ⟨"H", some "HAvg", ColType.simpleAvg⟩,
   ⟨"A1", some "B_A1Events", ColType.perLength⟩,
   ⟨"IPI", none, ColType.customTotalIPI⟩,
   ⟨"HS IPI", none, ColType.customTotalHSIPI⟩]

/-- The count-metric fields of the report: the fields of the `perLength`
columns. -/
def countMetricFields : List String :=
  (REPORT_COLUMNS.filter (fun c => c.type = ColType.perLength)).filterMap (fun c => c.field)

/-- The per-group accumulator of the search engine (`GroupAcc` in
`groupData`).  The `sums`/`counts` objects are modelled as total maps
with default `0`, which also models the `|| 0` reads at finalization. -/
structure GroupAcc where
  totalLength : ℚ
  refLen : ℚ
  totalIPI : ℚ
  totalHSIPI : ℚ
  sums : String → ℚ
  counts : String → ℕ

/-- The freshly created accumulator (`groups[key] = {...}`). -/
def emptyAcc : GroupAcc :=
  { totalLength := 0, refLen := 0, totalIPI := 0, totalHSIPI := 0,
    sums := fun _ => 0, counts := fun _ => 0 }

/-- One step of the `REPORT_COLUMNS.forEach` accumulation: a numeric value
of a `perLength` column is added to its sum; a `simpleAvg` column also
bumps its count; non-numeric values are skipped by the `typeof` guard. -/
def applyCol (r : LongTermDataRecord) (g : GroupAcc) (col : ReportColumn) : GroupAcc :=
  match col.field with
  | none => g
  | some f =>
      match r.fields f with
      | JSVal.num v =>
          match col.type with
          | ColType.perLength =>
              { g with sums := fun f2 => if f2 = f then g.sums f2 + v else g.sums f2 }
          | ColType.simpleAvg =>
              { g with sums := fun f2 => if f2 = f then g.sums f2 + v else g.sums f2,
                       counts := fun f2 => if f2 = f then g.counts f2 + 1 else g.counts f2 }
          | _ => g
      | _ => g

/-- Folding one record into a group accumulator (the per-record body of
`groupData`: lengths, composite indices, then the columns loop). -/
def accRecord (r : LongTermDataRecord) (g : GroupAcc) : GroupAcc :=
  let g1 : GroupAcc :=
    { g with
      totalLength := g.totalLength + typedNum (r.fields "YarnLength"),
      refLen := g.refLen + typedNum (r.fields "IPRefLength"),
      totalIPI := g.totalIPI +
        (typedNum (r.fields "Thin50") + typedNum (r.fields "Thick50") +
         typedNum (r.fields "Nep200")),
      totalHSIPI := g.totalHSIPI +
        (typedNum (r.fields "Thin40") + typedNum (r.fields "Thick35") +
         typedNum (r.fields "Nep140")) }
  REPORT_COLUMNS.foldl (applyCol r) g1

/-- One step of the grouping fold: route the record to its key and fold it
in there (the lazily created group is the default `emptyAcc`). -/
def routeStep (gb : GroupByField) (rt : ReportType)
    (m : String → GroupAcc) (r : LongTermDataRecord) : String → GroupAcc :=
  fun key => if key = searchGroupKey gb rt r then accRecord r (m key) else m key

/-- The group accumulators of the search engine after folding all records
(the first pass of `groupData`), as a total map from group key. -/
def groupAccs (gb : GroupByField) (rt : ReportType)
    (records : List LongTermDataRecord) : String → GroupAcc :=
  records.foldl (routeStep gb rt) (fun _ => emptyAcc)

/-- The value-filter layer feeding `groupData` (`filteredData`): with an
active filter field and a non-empty selection, keep exactly the records
whose resolved filter value is selected. -/
def searchFilter (filterField : Option GroupByField) (vals : List String)
    (records : List LongTermDataRecord) : List LongTermDataRecord :=
  records.filter (fun r =>
    match filterField with
    | none => true
    | some ff => vals.isEmpty || vals.contains (jsKeyOrNA (dimOf r ff)))

/-- The search-report finalizer for one column of a completed group
(the row-building `map` of `groupData`); `none` when the column matches
no branch (never the case for `REPORT_COLUMNS`). -/
def finalizeCol (acc : GroupAcc) (col : ReportColumn) : Option String :=
  match col.type with
  | ColType.customTotalIPI =>
      some (if 0 < acc.refLen then toFixedQ 0 (acc.totalIPI / acc.refLen) else "N/A")
  | ColType.customTotalHSIPI =>
      some (if 0 < acc.refLen then toFixedQ 0 (acc.totalHSIPI / acc.refLen) else "N/A")
  | ColType.perLength =>
      col.field.map (fun f =>
        if 0 < acc.totalLength then toFixedQ 0 ((acc.sums f / acc.totalLength) * 100)
        else "N/A")
  | ColType.simpleAvg =>
      col.field.map (fun f =>
        if 0 < acc.counts f then toFixedQ 2 (acc.sums f / ((acc.counts f : ℕ) : ℚ))
        else "N/A")

/-- The finalized row of a completed group: column title paired with the
displayed string. -/
def finalizeRow (acc : GroupAcc) : List (String × String) :=
  REPORT_COLUMNS.filterMap (fun col => (finalizeCol acc col).map (fun v => (col.title, v)))

/-- Association-list lookup keyed by strings, preserving the insertion
order of a JavaScript object. -/
def alGet {β : Type} (m : List (String × β)) (k : String) : Option β :=
  (m.find? (fun p => p.1 = k)).map (fun p => p.2)

/-- Association-list write: an existing key keeps its position (as in a
JavaScript object), a new key is appended. -/
def alSet {β : Type} (m : List (String × β)) (k : String) (v : β) : List (String × β) :=
  if m.any (fun p => p.1 = k) then
    m.map (fun p => if p.1 = k then (k, v) else p)
  else m ++ [(k, v)]

/-- JavaScript `Set.prototype.add` on an insertion-ordered set of strings. -/
def sAdd (s : List String) (x : String) : List String :=
  if s.contains x then s else s ++ [x]

/-- The first-column (grouping-dimension) choices of the trend engine. -/
inductive FirstColumn where
  | unit | articlename | articlenumber | lotid | machinename
deriving DecidableEq, Repr

/-- The metric-group choices of the trend engine. -/
inductive TrendGroup where
  | quality | cuts | alarms | cmt
deriving DecidableEq, Repr

/-- The configuration of one trend computation (the selections feeding
`calculateTrend`; `selectedUnit = ""` means all units). -/
structure TrendConfig where
  selectedUnit : String
  selectedTrendGroup : TrendGroup
  selectedFirstColumn : FirstColumn
  selectedParameter : String
  selectedTrendValues : List String

/-- The per-(date,label) running accumulator of the trend engine
(`{ sum: 0, refLength: 0, yarnLength: 0, count: 0 }`); the sums are
JavaScript numbers and may be `NaN` (`none`). -/
structure TrendStats where
  sum : JNum := some 0
  refLength : JNum := some 0
  yarnLength : JNum := some 0
  count : ℕ := 0
deriving DecidableEq, Repr

/-- The accumulator of a label together with its per-machine drill-down
sub-accumulators. -/
structure LabelStats where
  stats : TrendStats := {}
  machines : List (String × TrendStats) := []
deriving DecidableEq, Repr

/-- The mutable state of the record loop of `calculateTrend`. -/
structure TrendState where
  trendMap : List (String × List (String × LabelStats)) := []
  labelsSet : List String := []
  datesSet : List String := []
deriving DecidableEq, Repr

/-- The group label of a record in the trend engine: the `"Unknown"`
fallback applies to the four non-unit dimensions, while the unit
dimension is `String(item.MillUnit)` with no fallback. -/
def trendLabel (fc : FirstColumn) (item : LongTermDataRecord) : String :=
  match fc with
  | FirstColumn.unit => jsToString item.MillUnit
  | FirstColumn.articlename => labelOr item.ArticleName "Unknown"
  | FirstColumn.articlenumber => labelOr item.ArticleNumber "Unknown"
  | FirstColumn.lotid => labelOr item.LotID "Unknown"
  | FirstColumn.machinename => labelOr item.MachineName "Unknown"

/-- The alarm-breakdown column names summed into `totalAlarms`. -/
def alarmColumns : List String :=
  ["NSABlks", "LABlks", "TABlks", "CABlks", "CCABlks",
   "FABlks", "PPABlks", "PFABlks", "CVpABlks", "HpABlks", "CMTABlks"]

/-- The per-record parameter value of the trend engine.  The composite
`IPI`/`HSIPI` branches compute `Number(field || 0)` — the `|| 0` is
applied before the `Number` coercion, so a truthy non-numeric string
yields `NaN` — while `totalAlarms` and the default branch compute
`Number(field) || 0`, which collapses `NaN` to `0`. -/
def paramVal (p : String) (item : LongTermDataRecord) : JNum :=
  if p = "IPI" then
    jsAdd (jsAdd (jsNumber (jsOr (item.fields "Thin50") (JSVal.num 0)))
                 (jsNumber (jsOr (item.fields "Thick50") (JSVal.num 0))))
          (jsNumber (jsOr (item.fields "Nep200") (JSVal.num 0)))
  else if p = "HSIPI" then
    jsAdd (jsAdd (jsNumber (jsOr (item.fields "Thin40") (JSVal.num 0)))
                 (jsNumber (jsOr (item.fields "Thick35") (JSVal.num 0))))
          (jsNumber (jsOr (item.fields "Nep140") (JSVal.num 0)))
  else if p = "totalAlarms" then
    some (alarmColumns.foldl (fun acc c => acc + numOr0 (item.fields c)) 0)
  else
    some (numOr0 (item.fields p))

/-- The zero-padded `YYYY-MM-DD` bucket key of the trend engine (the
date part of `toISOString`). -/
def isoDate (d : SDate) : String :=
  padZeros 4 (Nat.repr d.year) ++ "-" ++ padZeros 2 (Nat.repr d.month) ++ "-" ++
    padZeros 2 (Nat.repr d.day)

/-- One iteration of the `data.forEach` loop of `calculateTrend`: apply
the unit filter, drop records with an invalid timestamp, resolve the
label, apply the value filter, then fold the values of the record into the
(date,label) accumulator and its per-machine sub-accumulator. -/
def trendStep (cfg : TrendConfig) (st : TrendState) (item : LongTermDataRecord) : TrendState :=
  if cfg.selectedUnit ≠ "" ∧ item.MillUnit ≠ JSVal.str cfg.selectedUnit then st
  else
    match item.ShiftStartTime with
    | Timestamp.invalid => st
    | Timestamp.valid d =>
        let dateStr := isoDate d
        let label := trendLabel cfg.selectedFirstColumn item
        if cfg.selectedTrendValues ≠ [] ∧ ¬ cfg.selectedTrendValues.contains label then st
        else
          let val := paramVal cfg.selectedParameter item
          let ipRefLength := jsNumber (jsOr (item.fields "IPRefLength") (JSVal.num 0))
          let yarnLength := jsNumber (jsOr (item.fields "YarnLength") (JSVal.num 0))
          let machineName := labelOr item.MachineName "Unknown"
          let dateMap := (alGet st.trendMap dateStr).getD []
          let ls := (alGet dateMap label).getD {}
          let stats2 : TrendStats :=
            { sum := jsAdd ls.stats.sum val,
              refLength := jsAdd ls.stats.refLength ipRefLength,
              yarnLength := jsAdd ls.stats.yarnLength yarnLength,
              count := ls.stats.count + 1 }
          let ms := (alGet ls.machines machineName).getD {}
          let ms2 : TrendStats :=
            { sum := jsAdd ms.sum val,
              refLength := jsAdd ms.refLength ipRefLength,
              yarnLength := jsAdd ms.yarnLength yarnLength,
              count := ms.count + 1 }
          let ls2 : LabelStats := { stats := stats2, machines := alSet ls.machines machineName ms2 }
          { trendMap := alSet st.trendMap dateStr (alSet dateMap label ls2),
            labelsSet := sAdd st.labelsSet label,
            datesSet := sAdd st.datesSet dateStr }

/-- The trend-engine state after folding all records. -/
def runTrend (cfg : TrendConfig) (records : List LongTermDataRecord) : TrendState :=
  records.foldl (trendStep cfg) {}

/-- The accumulator of a given (date, label) cell, if any. -/
def trendStatsAt (st : TrendState) (d l : String) : Option LabelStats :=
  (alGet st.trendMap d).bind (fun dm => alGet dm l)

/-- The trend finalizer (`calculateFinal`): the quality group divides by
`refLength` (or takes the simple average for `CVAvg`/`HAvg`), the cuts
and cmt groups compute `(sum / yarnLength) * 100`, and the remaining
(alarms) group emits the raw sum via `toString`. -/
def calculateFinal (g : TrendGroup) (p : String) (s : TrendStats) : String :=
  match g with
  | TrendGroup.quality =>
      if p = "CVAvg" ∨ p = "HAvg" then
        if 0 < s.count then jsToFixed 2 (jsDiv s.sum (some ((s.count : ℕ) : ℚ))) else "0.00"
      else
        if jsGtZero s.refLength then jsToFixed 2 (jsDiv s.sum s.refLength) else "0.00"
  | TrendGroup.cuts =>
      if jsGtZero s.yarnLength then jsToFixed 2 (jsMul (jsDiv s.sum s.yarnLength) (some 100))
      else "0.00"
  | TrendGroup.cmt =>
      if jsGtZero s.yarnLength then jsToFixed 2 (jsMul (jsDiv s.sum s.yarnLength) (some 100))
      else "0.00"
  | TrendGroup.alarms => jsNumToString s.sum

/-- The assembled trend table (`TrendResponse`): rows are (date, cells),
cells and drill-down rows are insertion-ordered association lists. -/
structure TrendResponse where
  data : List (String × List (String × String))
  labels : List String
  dates : List String
  drillDownData : List (String × (List String × List (String × List (String × String))))

/-- The full trend computation (`calculateTrend`): fold the records,
sort the dates, finalize every (date,label) cell, collect the machines
of each label across dates, and build the drill-down tables. -/
def calculateTrend (cfg : TrendConfig) (records : List LongTermDataRecord) : TrendResponse :=
  let st := runTrend cfg records
  let sortedDates := jsSortStrings st.datesSet
  let result := sortedDates.map (fun date =>
    (date, ((alGet st.trendMap date).getD []).map (fun pr =>
      (pr.1, calculateFinal cfg.selectedTrendGroup cfg.selectedParameter pr.2.stats))))
  let labelMachineMap := sortedDates.foldl (fun acc date =>
    ((alGet st.trendMap date).getD []).foldl (fun acc2 pr =>
      alSet acc2 pr.1 (pr.2.machines.foldl (fun s mpr => sAdd s mpr.1)
        ((alGet acc2 pr.1).getD []))) acc) []
  let drill := labelMachineMap.map (fun pr =>
    let machines := jsSortStrings pr.2
    (pr.1, (machines, sortedDates.map (fun date =>
      (date, machines.filterMap (fun m =>
        match trendStatsAt st date pr.1 with
        | some ls => (alGet ls.machines m).map (fun ms =>
            (m, calculateFinal cfg.selectedTrendGroup cfg.selectedParameter ms))
        | none => none))))))
  { data := result, labels := jsSortStrings st.labelsSet, dates := sortedDates,
    drillDownData := drill }

/-- The metric kinds of the trend-finalizer table of the spec, with the
alarms row as the raw-count kind. -/
inductive SpecMetricKind where
  | qualityRate | simpleAvg2 | perLengthPct | rawCount
deriving DecidableEq, Repr

/-- Modelled from the spec: the finalizer table, amended for the alarms
group: the quality group is a `refLength` rate unless the metric is
`CVAvg`/`HAvg` (simple average); the cuts and cmt groups are
percent-per-length; every alarms-group metric is a raw count. -/
def specKindFor (g : TrendGroup) (p : String) : SpecMetricKind :=
  match g with
  | TrendGroup.quality =>
      if p = "CVAvg" ∨ p = "HAvg" then SpecMetricKind.simpleAvg2 else SpecMetricKind.qualityRate
  | TrendGroup.cuts => SpecMetricKind.perLengthPct
  | TrendGroup.cmt => SpecMetricKind.perLengthPct
  | TrendGroup.alarms => SpecMetricKind.rawCount

/-- Modelled from the spec: the displayed value of one metric kind over a
completed group, with `"0.00"` when the dividing kinds lack a positive
denominator. -/
def specApply (k : SpecMetricKind) (s : TrendStats) : String :=
  match k with
  | SpecMetricKind.qualityRate =>
      if jsGtZero s.refLength then jsToFixed 2 (jsDiv s.sum s.refLength) else "0.00"
  | SpecMetricKind.simpleAvg2 =>
      if 0 < s.count then jsToFixed 2 (jsDiv s.sum (some ((s.count : ℕ) : ℚ))) else "0.00"
  | SpecMetricKind.perLengthPct =>
      if jsGtZero s.yarnLength then jsToFixed 2 (jsMul (jsDiv s.sum s.yarnLength) (some 100))
      else "0.00"
  | SpecMetricKind.rawCount => jsNumToString s.sum

/-- One machine row of the live snapshot (`MachineCutData`): the cut
fields arrive as strings or numbers and are coerced with
`Number(x) || 0`; `totalAlarms` is an optional number. -/
structure MachineCutData where
  machineName : String
  YarnFaults : JSVal := JSVal.undef
  YarnJoints : JSVal := JSVal.undef
  YarnBreaks : JSVal := JSVal.undef
  NCuts : JSVal := JSVal.undef
  SCuts : JSVal := JSVal.undef
  LCuts : JSVal := JSVal.undef
  TCuts : JSVal := JSVal.undef
  FDCuts : JSVal := JSVal.undef
  PPCuts : JSVal := JSVal.undef
  totalAlarms : Option ℚ := none
  alarmBreakdown : List (String × ℚ) := []

/-- One article row of the live snapshot, carrying its machine rows
(an absent `machines` array is the empty list). -/
structure ArticleCutData where
  articleNumber : String
  machines : List MachineCutData := []

/-- The live snapshot of one unit (an absent `articles` array is the
empty list). -/
structure LiveReportData where
  unit : String
  articles : List ArticleCutData := []

/-- The slice of the last two characters (the whole string when it is
shorter). -/
def sliceLast2 (s : String) : String :=
  String.mk (s.data.drop (s.data.length - 2))

/-- The machine-wise rollup accumulator of `getMachineWiseData`.  The
pushed `articles` rows retain their identifying `articleNumber` (their
remaining payload is spread UI data never read by the aggregation). -/
structure MachineAgg where
  machineName : String
  displayMachineName : String
  YarnFaults : ℚ := 0
  YarnJoints : ℚ := 0
  YarnBreaks : ℚ := 0
  NCuts : ℚ := 0
  SCuts : ℚ := 0
  LCuts : ℚ := 0
  TCuts : ℚ := 0
  FDCuts : ℚ := 0
  PPCuts : ℚ := 0
  totalAlarms : ℚ := 0
  alarmBreakdown : List (String × ℚ) := []
  articles : List String := []
deriving DecidableEq, Repr

/-- Folding one machine row into its rollup (the inner loop body of
`getMachineWiseData`). -/
def accMachine (art : ArticleCutData) (mach : MachineCutData) (m : MachineAgg) : MachineAgg :=
  { m with
    YarnFaults := m.YarnFaults + numOr0 mach.YarnFaults,
    YarnJoints := m.YarnJoints + numOr0 mach.YarnJoints,
    YarnBreaks := m.YarnBreaks + numOr0 mach.YarnBreaks,
    NCuts := m.NCuts + numOr0 mach.NCuts,
    SCuts := m.SCuts + numOr0 mach.SCuts,
    LCuts := m.LCuts + numOr0 mach.LCuts,
    TCuts := m.TCuts + numOr0 mach.TCuts,
    FDCuts := m.FDCuts + numOr0 mach.FDCuts,
    PPCuts := m.PPCuts + numOr0 mach.PPCuts,
    totalAlarms := m.totalAlarms + mach.totalAlarms.getD 0,
    alarmBreakdown := mach.alarmBreakdown.foldl
      (fun ab p => alSet ab p.1 ((alGet ab p.1).getD 0 + p.2)) m.alarmBreakdown,
    articles := m.articles ++ [art.articleNumber] }

/-- The machine-wise rollup of the live snapshot of one unit
(`getMachineWiseData`): aggregate per machine name across articles in
insertion order, then sort by machine name with the numeric-aware
`localeCompare` comparison. -/
def getMachineWiseData (unitData : LiveReportData) : List MachineAgg :=
  let machineMap := unitData.articles.foldl (fun acc art =>
    art.machines.foldl (fun acc2 mach =>
      let cur := (alGet acc2 mach.machineName).getD
        { machineName := mach.machineName,
          displayMachineName := sliceLast2 mach.machineName }
      alSet acc2 mach.machineName (accMachine art mach cur)) acc) []
  naturalSortBy (fun m => m.machineName) (machineMap.map (fun p => p.2))

/-- The earliest bucket with a defined value for a row (the `oldestVal`
search of `renderRows` over the ordered bucket keys). -/
def oldestDefined (keys : List String) (cell : String → Option String) : Option String :=
  match keys with
  | [] => none
  | k :: t =>
      match cell k with
      | some v => some v
      | none => oldestDefined t cell

/-- The value of the row at the last bucket of the full bucket list
(the `latestVal` of `renderRows`). -/
def latestCell (keys : List String) (cell : String → Option String) : Option String :=
  match keys.getLast? with
  | some k => cell k
  | none => none

/-- The formatted percent-change string
(sign prefix `+` for positive, then `toFixed(1)`, then the percent
sign). -/
def fmtDelta (q : ℚ) : String :=
  (if 0 < q then "+" else "") ++ toFixedQ 1 q ++ "%"

/-- The percent-change cell computed from the two endpoint values
(`renderRows`, also `downloadPDF`): with `ov = Number(oldest)` and
`lv = Number(latest)`, the strict-inequality guard `ov !== 0` is
`ov ≠ some 0` (true for `NaN`), `!isNaN` is `≠ none`, and the `New`
branch tests `ov === 0 && lv !== 0`. -/
def deltaPercent (oldestVal latestVal : Option String) : String :=
  match oldestVal, latestVal with
  | some o, some l =>
      let ov := jsParseNumber o
      let lv := jsParseNumber l
      if ov ≠ some 0 ∧ ov ≠ none ∧ lv ≠ none then
        fmtDelta ((lv.getD 0 - ov.getD 0) / ov.getD 0 * 100)
      else if ov = some 0 ∧ lv ≠ some 0 then "New"
      else "-"
  | _, _ => "-"

/-- The percent-change cell of one on-screen trend row (`renderRows`):
endpoints are the earliest defined value and the last bucket value. -/
def rowDelta (keys : List String) (cell : String → Option String) : String :=
  deltaPercent (oldestDefined keys cell) (latestCell keys cell)

/-- The percent-change cell of one PDF-exported trend row
(`downloadPDF`): the oldest endpoint is the value of the row at the FIRST
bucket of the list (`allKeys[0]`), defined or not. -/
def pdfRowDelta (keys : List String) (cell : String → Option String) : String :=
  let oldestVal := match keys.head? with
    | some k => cell k
    | none => none
  deltaPercent oldestVal (latestCell keys cell)

/-- Build a record from a timestamp, the five dimension values, and an
association list of numeric metric fields (absent fields are
`undefined`). -/
def mkRecord (ts : Timestamp) (unit artName artNum lot mach : JSVal)
    (fs : List (String × JSVal)) : LongTermDataRecord :=
  { ShiftStartTime := ts, MillUnit := unit, ArticleName := artName,
    ArticleNumber := artNum, LotID := lot, MachineName := mach,
    fields := fun f => ((fs.find? (fun p => p.1 = f)).map (fun p => p.2)).getD JSVal.undef }

/-- The contribution of one report column to `sums f` when one record is
accumulated: the field value of the record (as a typed number) when the column
owns field `f` with a summing type, `0` otherwise. -/
def colSumContrib (r : LongTermDataRecord) (f : String) (col : ReportColumn) : ℚ :=
  match col.field with
  | none => 0
  | some f2 =>
      if f2 = f ∧ (col.type = ColType.perLength ∨ col.type = ColType.simpleAvg) then
        typedNum (r.fields f)
      else 0

lemma applyCol_sums (r : LongTermDataRecord) (g : GroupAcc) (col : ReportColumn) (f : String) :
    (applyCol r g col).sums f = g.sums f + colSumContrib r f col := by
  rcases col with ⟨t, fo, ty⟩
  cases fo with
  | none => simp [applyCol, colSumContrib]
  | some fc =>
      by_cases hfc : fc = f
      · subst hfc
        cases hv : r.fields fc <;> cases ty <;>
          simp [applyCol, colSumContrib, hv, typedNum]
      · have hfc2 : ¬ f = fc := fun h => hfc h.symm
        cases hv : r.fields fc <;> cases ty <;>
          simp [applyCol, colSumContrib, hv, typedNum, hfc, hfc2]

lemma applyCol_totalLength (r : LongTermDataRecord) (g : GroupAcc) (col : ReportColumn) :
    (applyCol r g col).totalLength = g.totalLength := by
  rcases col with ⟨t, fo, ty⟩
  cases fo with
  | none => rfl
  | some fc => cases hv : r.fields fc <;> cases ty <;> simp [applyCol, hv]

lemma foldl_applyCol_sums (r : LongTermDataRecord) (f : String) :
    ∀ (cols : List ReportColumn) (g : GroupAcc),
      ((cols.foldl (applyCol r) g).sums f) = g.sums f + (cols.map (colSumContrib r f)).sum := by
  intro cols
  induction cols with
  | nil => intro g; simp
  | cons c t ih =>
      intro g
      rw [List.foldl_cons, ih (applyCol r g c), applyCol_sums]
      simp [add_assoc]

lemma foldl_applyCol_totalLength (r : LongTermDataRecord) :
    ∀ (cols : List ReportColumn) (g : GroupAcc),
      (cols.foldl (applyCol r) g).totalLength = g.totalLength := by
  intro cols
  induction cols with
  | nil => intro g; rfl
  | cons c t ih =>
      intro g
      rw [List.foldl_cons, ih (applyCol r g c), applyCol_totalLength]

lemma repCols_contrib (r : LongTermDataRecord) (f : String) (hf : f ∈ countMetricFields) :
    (REPORT_COLUMNS.map (colSumContrib r f)).sum = typedNum (r.fields f) := by
  have he : countMetricFields =
      ["YarnFaults", "NCuts", "SCuts", "LCuts", "TCuts", "FDCuts", "PPCuts",
       "CpCuts", "CCpCuts", "CmCuts", "CCmCuts", "B_A1Events"] := rfl
  rw [he] at hf
  simp only [List.mem_cons, List.not_mem_nil, or_false] at hf
  rcases hf with rfl | rfl | rfl | rfl | rfl | rfl | rfl | rfl | rfl | rfl | rfl | rfl <;>
    simp +decide [REPORT_COLUMNS, colSumContrib]

lemma accRecord_sums (r : LongTermDataRecord) (g : GroupAcc) (f : String)
    (hf : f ∈ countMetricFields) :
    (accRecord r g).sums f = g.sums f + typedNum (r.fields f) := by
  unfold accRecord
  rw [foldl_applyCol_sums, repCols_contrib r f hf]

lemma accRecord_totalLength (r : LongTermDataRecord) (g : GroupAcc) :
    (accRecord r g).totalLength = g.totalLength + typedNum (r.fields "YarnLength") := by
  unfold accRecord
  rw [foldl_applyCol_totalLength]

lemma accFold_sums (f : String) (hf : f ∈ countMetricFields) :
    ∀ (rs : List LongTermDataRecord) (g : GroupAcc),
      ((rs.foldl (fun g2 r => accRecord r g2) g).sums f) =
        g.sums f + (rs.map (fun r => typedNum (r.fields f))).sum := by
  intro rs
  induction rs with
  | nil => intro g; simp
  | cons r t ih =>
      intro g
      rw [List.foldl_cons, ih (accRecord r g), accRecord_sums r g f hf]
      simp [add_assoc]

lemma accFold_totalLength :
    ∀ (rs : List LongTermDataRecord) (g : GroupAcc),
      ((rs.foldl (fun g2 r => accRecord r g2) g).totalLength) =
        g.totalLength + (rs.map (fun r => typedNum (r.fields "YarnLength"))).sum := by
  intro rs
  induction rs with
  | nil => intro g; simp
  | cons r t ih =>
      intro g
      rw [List.foldl_cons, ih (accRecord r g), accRecord_totalLength]
      simp [add_assoc]

lemma groupAccs_eq (gb : GroupByField) (rt : ReportType) :
    ∀ (rs : List LongTermDataRecord) (m : String → GroupAcc) (k : String),
      (rs.foldl (routeStep gb rt) m) k =
        ((rs.filter (fun r => decide (searchGroupKey gb rt r = k))).foldl
          (fun g r => accRecord r g) (m k)) := by
  intro rs
  induction rs with
  | nil => intro m k; rfl
  | cons r t ih =>
      intro m k
      rw [List.foldl_cons, ih (routeStep gb rt m r) k]
      by_cases h : searchGroupKey gb rt r = k
      · have hk : k = searchGroupKey gb rt r := h.symm
        have hr : routeStep gb rt m r k = accRecord r (m k) := by
          unfold routeStep
          rw [if_pos hk]
        rw [hr, List.filter_cons]
        rw [if_pos (by simpa using h), List.foldl_cons]
      · have hk : ¬ k = searchGroupKey gb rt r := fun h2 => h h2.symm
        have hr : routeStep gb rt m r k = m k := by
          unfold routeStep
          rw [if_neg hk]
        rw [hr, List.filter_cons, if_neg (by simpa using h)]

/-- C2: for every grouping configuration and every group, the accumulated
sum of a count metric equals the arithmetic sum of that field over exactly
the records routed to that group by the filter/selection layer and the
group-key function, and `totalLength` equals the sum of their
`YarnLength` (non-numeric field values count as `0`, as accumulated). -/
theorem C2_sum_conservation (ff : Option GroupByField) (vals : List String)
    (input : List LongTermDataRecord) (gb : GroupByField) (rt : ReportType)
    (k f : String) (hf : f ∈ countMetricFields) :
    ((groupAccs gb rt (searchFilter ff vals input)) k).sums f =
      (((searchFilter ff vals input).filter
          (fun r => decide (searchGroupKey gb rt r = k))).map
        (fun r => typedNum (r.fields f))).sum ∧
    ((groupAccs gb rt (searchFilter ff vals input)) k).totalLength =
      (((searchFilter ff vals input).filter
          (fun r => decide (searchGroupKey gb rt r = k))).map
        (fun r => typedNum (r.fields "YarnLength"))).sum := by
  unfold groupAccs
  rw [groupAccs_eq]
  constructor
  · rw [accFold_sums f hf]
    simp [emptyAcc]
  · rw [accFold_totalLength]
    simp [emptyAcc]

/-- First record of the C2 end-to-end scenario: unit U1, 2024-01-01,
10 yarn faults over 1000 length. -/
def c2rec1 : LongTermDataRecord :=
  mkRecord (Timestamp.valid ⟨2024, 1, 1⟩) (JSVal.str "U1")
    JSVal.undef JSVal.undef JSVal.undef JSVal.undef
    [("YarnFaults", JSVal.num 10), ("YarnLength", JSVal.num 1000)]

/-- Second record of the C2 end-to-end scenario: unit U1, 2024-01-01,
20 yarn faults over 1000 length. -/
def c2rec2 : LongTermDataRecord :=
  mkRecord (Timestamp.valid ⟨2024, 1, 1⟩) (JSVal.str "U1")
    JSVal.undef JSVal.undef JSVal.undef JSVal.undef
    [("YarnFaults", JSVal.num 20), ("YarnLength", JSVal.num 1000)]

unseal Rat.add Rat.mul Rat.inv Rat.sub in
/-- C2 witness: on the two-record scenario grouped by unit, the claim
theorem applies, the group accumulates `sum = 30` and
`totalLength = 2000`, the pre-rounding `perLength` value is
`(30/2000)*100 = 1.5`, and two-decimal formatting gives `"1.50"`. -/
theorem C2_witness :
    ("YarnFaults" ∈ countMetricFields) ∧
    (((groupAccs GroupByField.MillUnit ReportType.daily
        (searchFilter none [] [c2rec1, c2rec2])) "U1").sums "YarnFaults" =
      ((((searchFilter none [] [c2rec1, c2rec2])).filter
          (fun r => decide (searchGroupKey GroupByField.MillUnit ReportType.daily r = "U1"))).map
        (fun r => typedNum (r.fields "YarnFaults"))).sum) ∧
    (((groupAccs GroupByField.MillUnit ReportType.daily [c2rec1, c2rec2]) "U1").sums
        "YarnFaults" = 30) ∧
    (((groupAccs GroupByField.MillUnit ReportType.daily [c2rec1, c2rec2]) "U1").totalLength
        = 2000) ∧
    (((30 : ℚ) / 2000) * 100 = 3 / 2) ∧
    (toFixedQ 2 (((30 : ℚ) / 2000) * 100) = "1.50") :=
  ⟨by decide,
   (C2_sum_conservation none [] [c2rec1, c2rec2] GroupByField.MillUnit ReportType.daily
      "U1" "YarnFaults" (by decide)).1,
   by decide, by decide, by norm_num, by decide⟩

/-- A completed alarms-group accumulator with `sum = 1` over
`totalLength = 2000` (one alarm block on 2000 length units). -/
def c1stats : TrendStats :=
  { sum := some 1, refLength := some 0, yarnLength := some 2000, count := 1 }

unseal Rat.add Rat.mul Rat.inv Rat.sub in
/-- C1 counterexample: for an alarms-group metric (`NSABlks`) the trend
finalizer emits the raw sum string `"1"`, not the claimed
`(sum / totalLength) * 100` two-decimal normalization, which would be
`"0.05"` on this group. -/
theorem C1_counterexample :
    calculateFinal TrendGroup.alarms "NSABlks" c1stats = "1" ∧
    specApply SpecMetricKind.perLengthPct c1stats = "0.05" ∧
    calculateFinal TrendGroup.alarms "NSABlks" c1stats ≠
      specApply SpecMetricKind.perLengthPct c1stats := by
  refine ⟨by decide, by decide, ?_⟩
  intro h
  have h1 : calculateFinal TrendGroup.alarms "NSABlks" c1stats = "1" := by decide
  have h2 : specApply SpecMetricKind.perLengthPct c1stats = "0.05" := by decide
  rw [h1, h2] at h
  exact absurd h (by decide)

/-- C1 (amended): the trend finalizer realizes the metric-kind
table with the alarms row read as raw counts — quality-group metrics are
`sum / refLength` to two decimals unless the metric is `CVAvg`/`HAvg`
(then the simple average `sum / count`), with `"0.00"` on a
non-positive denominator; cuts- and cmt-group metrics are
`(sum / totalLength) * 100` to two decimals with `"0.00"` likewise; and
every alarms-group metric (including `totalAlarms`) is the raw sum
string with no normalization. -/
theorem C1_amended_finalizer (g : TrendGroup) (p : String) (s : TrendStats) :
    calculateFinal g p s = specApply (specKindFor g p) s := by
  cases g with
  | quality =>
      by_cases hc : p = "CVAvg" ∨ p = "HAvg" <;>
        simp [calculateFinal, specKindFor, specApply, hc]
  | cuts => rfl
  | alarms => rfl
  | cmt => rfl

/-- C4: under time grouping at weekly granularity, a record with a valid
date is keyed by the pair of its month and the fixed day-of-month week
bucket: days up to 7 give W1, 8 to 14 give W2, 15 to 21 give W3,
22 to 28 give W4, and 29 or later give W5. -/
theorem C4_weekly_bucketing (r : LongTermDataRecord) (d : SDate)
    (h : r.ShiftStartTime = Timestamp.valid d) :
    (d.day ≤ 7 →
      searchGroupKey GroupByField.ShiftStartTime ReportType.weekly r =
        Nat.repr d.month ++ "-" ++ "W1") ∧
    (8 ≤ d.day → d.day ≤ 14 →
      searchGroupKey GroupByField.ShiftStartTime ReportType.weekly r =
        Nat.repr d.month ++ "-" ++ "W2") ∧
    (15 ≤ d.day → d.day ≤ 21 →
      searchGroupKey GroupByField.ShiftStartTime ReportType.weekly r =
        Nat.repr d.month ++ "-" ++ "W3") ∧
    (22 ≤ d.day → d.day ≤ 28 →
      searchGroupKey GroupByField.ShiftStartTime ReportType.weekly r =
        Nat.repr d.month ++ "-" ++ "W4") ∧
    (29 ≤ d.day →
      searchGroupKey GroupByField.ShiftStartTime ReportType.weekly r =
        Nat.repr d.month ++ "-" ++ "W5") := by
  have hk : searchGroupKey GroupByField.ShiftStartTime ReportType.weekly r =
      Nat.repr d.month ++ "-" ++ weekBucket d.day := by
    simp [searchGroupKey, h]
  refine ⟨fun h1 => ?_, fun h1 h2 => ?_, fun h1 h2 => ?_, fun h1 h2 => ?_, fun h1 => ?_⟩
  · rw [hk]
    unfold weekBucket
    rw [if_pos h1]
  · rw [hk]
    unfold weekBucket
    rw [if_neg (by omega), if_pos h2]
  · rw [hk]
    unfold weekBucket
    rw [if_neg (by omega), if_neg (by omega), if_pos h2]
  · rw [hk]
    unfold weekBucket
    rw [if_neg (by omega), if_neg (by omega), if_neg (by omega), if_pos h2]
  · rw [hk]
    unfold weekBucket
    rw [if_neg (by omega), if_neg (by omega), if_neg (by omega), if_neg (by omega)]

/-- A record dated on the given day of March 2024 (dimensions unit U1). -/
def c4rec (day : ℕ) : LongTermDataRecord :=
  mkRecord (Timestamp.valid ⟨2024, 3, day⟩) (JSVal.str "U1")
    JSVal.undef JSVal.undef JSVal.undef JSVal.undef []

/-- C4 witness: the 7th buckets to W1 (via the claim theorem), and the
8th, 28th and 29th bucket to W2, W4 and W5. -/
theorem C4_witness :
    (searchGroupKey GroupByField.ShiftStartTime ReportType.weekly (c4rec 7) =
      Nat.repr (3 : ℕ) ++ "-" ++ "W1") ∧
    (searchGroupKey GroupByField.ShiftStartTime ReportType.weekly (c4rec 7) = "3-W1") ∧
    (searchGroupKey GroupByField.ShiftStartTime ReportType.weekly (c4rec 8) = "3-W2") ∧
    (searchGroupKey GroupByField.ShiftStartTime ReportType.weekly (c4rec 28) = "3-W4") ∧
    (searchGroupKey GroupByField.ShiftStartTime ReportType.weekly (c4rec 29) = "3-W5") :=
  ⟨(C4_weekly_bucketing (c4rec 7) ⟨2024, 3, 7⟩ rfl).1 (by decide),
   by decide, by decide, by decide, by decide⟩

/-- C5: a zero denominator never yields a division result: every dividing
column type of the search-report finalizer emits the sentinel `"N/A"`
when its denominator (`totalLength`, `count`, or `refLen`) is zero, and
every dividing branch of the trend finalizer emits `"0.00"` when its
denominator (`count`, `refLength`, or `yarnLength`) is zero — whatever
the accumulated sums are, so no `Infinity`/`NaN` can be displayed. -/
theorem C5_zero_denominator (acc : GroupAcc) (col : ReportColumn) (f p : String)
    (s : TrendStats) :
    (col.type = ColType.perLength → col.field = some f → acc.totalLength = 0 →
      finalizeCol acc col = some "N/A") ∧
    (col.type = ColType.simpleAvg → col.field = some f → acc.counts f = 0 →
      finalizeCol acc col = some "N/A") ∧
    (col.type = ColType.customTotalIPI → acc.refLen = 0 →
      finalizeCol acc col = some "N/A") ∧
    (col.type = ColType.customTotalHSIPI → acc.refLen = 0 →
      finalizeCol acc col = some "N/A") ∧
    ((p = "CVAvg" ∨ p = "HAvg") → s.count = 0 →
      calculateFinal TrendGroup.quality p s = "0.00") ∧
    (p ≠ "CVAvg" → p ≠ "HAvg" → s.refLength = some 0 →
      calculateFinal TrendGroup.quality p s = "0.00") ∧
    (s.yarnLength = some 0 → calculateFinal TrendGroup.cuts p s = "0.00") ∧
    (s.yarnLength = some 0 → calculateFinal TrendGroup.cmt p s = "0.00") := by
  refine ⟨fun ht hfld hz => ?_, fun ht hfld hz => ?_, fun ht hz => ?_, fun ht hz => ?_,
    fun hp hz => ?_, fun hp1 hp2 hz => ?_, fun hz => ?_, fun hz => ?_⟩
  · simp [finalizeCol, ht, hfld, hz]
  · simp [finalizeCol, ht, hfld, hz]
  · simp [finalizeCol, ht, hz]
  · simp [finalizeCol, ht, hz]
  · simp [calculateFinal, hp, hz]
  · simp [calculateFinal, hp1, hp2, hz, jsGtZero]
  · simp [calculateFinal, hz, jsGtZero]
  · simp [calculateFinal, hz, jsGtZero]

/-- A group with zero `totalLength`, `refLen` and counts but a nonzero
accumulated `YarnFaults` sum. -/
def c5acc : GroupAcc :=
  { emptyAcc with sums := fun f => if f = "YarnFaults" then 5 else 0 }

/-- A trend group with zero denominators and nonzero sum. -/
def c5stats : TrendStats :=
  { sum := some 7, refLength := some 0, yarnLength := some 0, count := 0 }

unseal Rat.add Rat.mul Rat.inv Rat.sub in
/-- C5 witness: on a group with `totalLength = 0` and `sum = 5`, the
`perLength` column of the search finalizer emits `"N/A"` (via the claim
theorem), and the trend finalizer emits `"0.00"` for a quality metric
with `refLength = 0` and for a cuts metric with `yarnLength = 0`. -/
theorem C5_witness :
    (finalizeCol c5acc ⟨"YF", some "YarnFaults", ColType.perLength⟩ = some "N/A") ∧
    (c5acc.sums "YarnFaults" = 5) ∧
    (calculateFinal TrendGroup.quality "IPI" c5stats = "0.00") ∧
    (calculateFinal TrendGroup.cuts "YarnFaults" c5stats = "0.00") ∧
    (calculateFinal TrendGroup.quality "CVAvg" c5stats = "0.00") :=
  ⟨(C5_zero_denominator c5acc ⟨"YF", some "YarnFaults", ColType.perLength⟩ "YarnFaults"
      "IPI" c5stats).1 rfl rfl (by decide),
   by decide, by decide, by decide, by decide⟩

/-- A record whose MillUnit is the empty string (falsy). -/
def c7rec : LongTermDataRecord :=
  mkRecord (Timestamp.valid ⟨2024, 1, 1⟩) (JSVal.str "")
    JSVal.undef JSVal.undef JSVal.undef JSVal.undef []

/-- C7 counterexample: a record whose unit dimension is falsy (empty
string) gets the trend label `""`, not `"Unknown"` — the trend engine
unit branch applies `String(item.MillUnit)` with no fallback. -/
theorem C7_counterexample :
    jsTruthy c7rec.MillUnit = false ∧
    trendLabel FirstColumn.unit c7rec = "" ∧
    trendLabel FirstColumn.unit c7rec ≠ "Unknown" := by
  refine ⟨by decide, by decide, ?_⟩
  intro h
  exact absurd h (by decide)

/-- C7 (amended): in the trend engine the `"Unknown"` fallback applies to
the four non-unit dimensions; the unit dimension is coerced with
`String(...)` and no fallback, so an empty-string unit stays `""` and an
absent one becomes `"undefined"`; the search engine falls back to
`"N/A"` for all five dimension choices. -/
theorem C7_amended_fallback (r : LongTermDataRecord) (rt : ReportType) :
    (jsTruthy r.ArticleName = false → trendLabel FirstColumn.articlename r = "Unknown") ∧
    (jsTruthy r.ArticleNumber = false → trendLabel FirstColumn.articlenumber r = "Unknown") ∧
    (jsTruthy r.LotID = false → trendLabel FirstColumn.lotid r = "Unknown") ∧
    (jsTruthy r.MachineName = false → trendLabel FirstColumn.machinename r = "Unknown") ∧
    (r.MillUnit = JSVal.str "" → trendLabel FirstColumn.unit r = "") ∧
    (r.MillUnit = JSVal.undef → trendLabel FirstColumn.unit r = "undefined") ∧
    (∀ gb : GroupByField, gb ≠ GroupByField.ShiftStartTime →
      jsTruthy (dimOf r gb) = false → searchGroupKey gb rt r = "N/A") := by
  refine ⟨fun h => ?_, fun h => ?_, fun h => ?_, fun h => ?_, fun h => ?_, fun h => ?_,
    fun gb hgb h => ?_⟩
  · simp [trendLabel, labelOr, h]
  · simp [trendLabel, labelOr, h]
  · simp [trendLabel, labelOr, h]
  · simp [trendLabel, labelOr, h]
  · simp [trendLabel, h, jsToString]
  · simp [trendLabel, h, jsToString]
  · cases gb with
    | ShiftStartTime => exact absurd rfl hgb
    | MillUnit => simp [searchGroupKey, jsKeyOrNA, h]
    | ArticleName => simp [searchGroupKey, jsKeyOrNA, h]
    | ArticleNumber => simp [searchGroupKey, jsKeyOrNA, h]
    | MachineName => simp [searchGroupKey, jsKeyOrNA, h]
    | LotID => simp [searchGroupKey, jsKeyOrNA, h]

/-- A record with every dimension absent. -/
def c7recAll : LongTermDataRecord :=
  mkRecord (Timestamp.valid ⟨2024, 1, 1⟩) JSVal.undef
    JSVal.undef JSVal.undef JSVal.undef JSVal.undef []

/-- C7 witness: on a record with every dimension absent, the trend engine
labels the article-name dimension `"Unknown"` (via the claim theorem) and
the unit dimension `"undefined"`, while the search engine labels the
unit dimension `"N/A"`. -/
theorem C7_witness :
    (trendLabel FirstColumn.articlename c7recAll = "Unknown") ∧
    (trendLabel FirstColumn.unit c7recAll = "undefined") ∧
    (searchGroupKey GroupByField.MillUnit ReportType.daily c7recAll = "N/A") :=
  ⟨(C7_amended_fallback c7recAll ReportType.daily).1 (by decide),
   ((C7_amended_fallback c7recAll ReportType.daily).2.2.2.2.2.1 (by decide)),
   ((C7_amended_fallback c7recAll ReportType.daily).2.2.2.2.2.2 GroupByField.MillUnit
      (by decide) (by decide))⟩

lemma trendStep_invalid (cfg : TrendConfig) (st : TrendState) (r : LongTermDataRecord)
    (h : r.ShiftStartTime = Timestamp.invalid) : trendStep cfg st r = st := by
  unfold trendStep
  rw [h]
  split
  · rfl
  · rfl

lemma foldl_trendStep_filter (cfg : TrendConfig) :
    ∀ (rs : List LongTermDataRecord) (st : TrendState),
      rs.foldl (trendStep cfg) st =
        (rs.filter (fun r => decide (r.ShiftStartTime ≠ Timestamp.invalid))).foldl
          (trendStep cfg) st := by
  intro rs
  induction rs with
  | nil => intro st; rfl
  | cons r t ih =>
      intro st
      by_cases h : r.ShiftStartTime = Timestamp.invalid
      · rw [List.foldl_cons, trendStep_invalid cfg st r h, ih st, List.filter_cons,
          if_neg (by simp [h])]
      · rw [List.foldl_cons, ih (trendStep cfg st r), List.filter_cons,
          if_pos (by simp [h]), List.foldl_cons]

/-- A record with an unparseable timestamp carrying 1000 yarn length. -/
def c9rec : LongTermDataRecord :=
  mkRecord Timestamp.invalid (JSVal.str "U1")
    JSVal.undef JSVal.undef JSVal.undef JSVal.undef
    [("YarnLength", JSVal.num 1000)]

unseal Rat.add Rat.mul Rat.inv Rat.sub in
/-- C9 counterexample: in the search engine, a record whose
ShiftStartTime does not parse is NOT excluded — under daily time
grouping it is routed to the `"Invalid Date"` group, whose accumulator
receives its full 1000 yarn length. -/
theorem C9_counterexample :
    searchGroupKey GroupByField.ShiftStartTime ReportType.daily c9rec = "Invalid Date" ∧
    ((groupAccs GroupByField.ShiftStartTime ReportType.daily [c9rec]) "Invalid Date").totalLength = 1000 ∧
    ((1000 : ℚ) ≠ 0) := by
  refine ⟨by decide, by decide, by norm_num⟩

/-- C9 (amended): the trend engine silently excludes a record with an
unparseable timestamp — the step leaves the state unchanged, so the whole
computation equals the computation on the records with valid timestamps —
but the search engine does not exclude it: under time grouping it routes
the record to the invalid-date bucket key of its granularity
(`"Invalid Date"` daily, `"NaN-W5"` weekly, `"NaN-NaN"` monthly). -/
theorem C9_amended_exclusion (cfg : TrendConfig) (st : TrendState)
    (r : LongTermDataRecord) (rs : List LongTermDataRecord) :
    (r.ShiftStartTime = Timestamp.invalid → trendStep cfg st r = st) ∧
    (calculateTrend cfg rs =
      calculateTrend cfg
        (rs.filter (fun r2 => decide (r2.ShiftStartTime ≠ Timestamp.invalid)))) ∧
    (r.ShiftStartTime = Timestamp.invalid →
      searchGroupKey GroupByField.ShiftStartTime ReportType.daily r = "Invalid Date" ∧
      searchGroupKey GroupByField.ShiftStartTime ReportType.weekly r = "NaN-W5" ∧
      searchGroupKey GroupByField.ShiftStartTime ReportType.monthly r = "NaN-NaN") := by
  refine ⟨fun h => trendStep_invalid cfg st r h, ?_, fun h => ?_⟩
  · unfold calculateTrend runTrend
    rw [foldl_trendStep_filter]
  · refine ⟨?_, ?_, ?_⟩ <;> simp [searchGroupKey, h]

/-- The C9 witness configuration (all units, quality IPI by unit). -/
def c9cfg : TrendConfig :=
  { selectedUnit := "", selectedTrendGroup := TrendGroup.quality,
    selectedFirstColumn := FirstColumn.unit, selectedParameter := "IPI",
    selectedTrendValues := [] }

/-- C9 witness: applying the claim theorem to the invalid-timestamp
record shows the trend step ignores it, while the search engine routes it
to the `"Invalid Date"` daily bucket. -/
theorem C9_witness :
    (trendStep c9cfg {} c9rec = ({} : TrendState)) ∧
    (searchGroupKey GroupByField.ShiftStartTime ReportType.daily c9rec = "Invalid Date" ∧
     searchGroupKey GroupByField.ShiftStartTime ReportType.weekly c9rec = "NaN-W5" ∧
     searchGroupKey GroupByField.ShiftStartTime ReportType.monthly c9rec = "NaN-NaN") :=
  ⟨(C9_amended_exclusion c9cfg {} c9rec []).1 rfl,
   (C9_amended_exclusion c9cfg {} c9rec []).2.2 rfl⟩

/-- The C6 failing input: a record with a valid timestamp whose `Thin50`
field holds the non-numeric string `"abc"`. -/
def c6rec : LongTermDataRecord :=
  mkRecord (Timestamp.valid ⟨2024, 1, 1⟩) (JSVal.str "U1")
    JSVal.undef JSVal.undef JSVal.undef JSVal.undef
    [("Thin50", JSVal.str "abc")]

/-- The C6 configuration: quality group, composite parameter IPI. -/
def c6cfg : TrendConfig :=
  { selectedUnit := "", selectedTrendGroup := TrendGroup.quality,
    selectedFirstColumn := FirstColumn.unit, selectedParameter := "IPI",
    selectedTrendValues := [] }

unseal Rat.add Rat.mul Rat.inv Rat.sub in
/-- C6 failing evaluation: under parameter `IPI`, the per-record value of
a record whose `Thin50` is the non-numeric string `"abc"` is
`Number("abc" || 0) + ... = NaN` (`none`), and after one accumulation
step the group `sum` accumulator IS `NaN` — the or-else zero is applied
before the `Number` coercion in the composite branch, so a truthy
non-numeric field does not contribute `0` as the claim requires. -/
theorem C6_nan_eval :
    paramVal "IPI" c6rec = none ∧
    (trendStatsAt (runTrend c6cfg [c6rec]) "2024-01-01" "U1").map
      (fun ls => ls.stats.sum) = some none := by
  exact ⟨by decide, by decide⟩

/-- The machine rows of the C8 snapshot in arrival order M2, M10, M1. -/
def c8m2 : MachineCutData := { machineName := "M2" }

/-- Machine row M10 of the C8 snapshot. -/
def c8m10 : MachineCutData := { machineName := "M10" }

/-- Machine row M1 of the C8 snapshot. -/
def c8m1 : MachineCutData := { machineName := "M1" }

/-- The single article of the C8 snapshot carrying the three machines. -/
def c8art : ArticleCutData := { articleNumber := "A1", machines := [c8m2, c8m10, c8m1] }

/-- The C8 unit snapshot. -/
def c8unit : LiveReportData := { unit := "U1", articles := [c8art] }

/-- A trend record on machine `mach` (5 NCuts over 1000 length). -/
def c8rec (mach : String) : LongTermDataRecord :=
  mkRecord (Timestamp.valid ⟨2024, 1, 1⟩) (JSVal.str "U1")
    JSVal.undef JSVal.undef JSVal.undef (JSVal.str mach)
    [("NCuts", JSVal.num 5), ("YarnLength", JSVal.num 1000)]

/-- The C8 trend configuration: cuts by machine name, no filters. -/
def c8cfg : TrendConfig :=
  { selectedUnit := "", selectedTrendGroup := TrendGroup.cuts,
    selectedFirstColumn := FirstColumn.machinename, selectedParameter := "NCuts",
    selectedTrendValues := [] }

/-- The C8 record list with machines M2, M10, M1. -/
def c8recs : List LongTermDataRecord := [c8rec "M2", c8rec "M10", c8rec "M1"]

unseal Rat.add Rat.mul Rat.inv Rat.sub in
/-- C8 counterexample: the trend engine sorts its labels with the default
lexicographic `Array.prototype.sort`, so the machine labels M2, M10, M1
come out as `["M1", "M10", "M2"]` — `"M10"` before `"M2"` — not in the
claimed natural order `["M1", "M2", "M10"]`. -/
theorem C8_counterexample :
    (calculateTrend c8cfg c8recs).labels = ["M1", "M10", "M2"] ∧
    (calculateTrend c8cfg c8recs).labels ≠ ["M1", "M2", "M10"] := by
  refine ⟨by decide, ?_⟩
  intro h
  have h1 : (calculateTrend c8cfg c8recs).labels = ["M1", "M10", "M2"] := by decide
  rw [h1] at h
  exact absurd h (by decide)

unseal Rat.add Rat.mul Rat.inv Rat.sub in
/-- C8 (amended): the machine-wise rollup sorts with the numeric-aware
natural comparison, so machines M2, M10, M1 come out as
`["M1", "M2", "M10"]`, but the table labels of the trend engine use the
default lexicographic sort and come out as `["M1", "M10", "M2"]`. -/
theorem C8_amended_sorting :
    ((getMachineWiseData c8unit).map (fun m => m.machineName)) = ["M1", "M2", "M10"] ∧
    naturalCompare "M2" "M10" = Ordering.lt ∧
    (calculateTrend c8cfg c8recs).labels = ["M1", "M10", "M2"] ∧
    jsSortStrings ["M2", "M10", "M1"] = ["M1", "M10", "M2"] := by
  exact ⟨by decide, by decide, by decide, by decide⟩

lemma deltaPercent_none_left (l : Option String) : deltaPercent none l = "-" := by
  rcases l with _ | t <;> rfl

lemma deltaPercent_none_right (o : Option String) : deltaPercent o none = "-" := by
  rcases o with _ | s <;> rfl

lemma deltaPercent_fmt (o l : String) (q r : ℚ) (hq : jsParseNumber o = some q)
    (hq0 : q ≠ 0) (hr : jsParseNumber l = some r) :
    deltaPercent (some o) (some l) = fmtDelta ((r - q) / q * 100) := by
  simp only [deltaPercent, hq, hr]
  rw [if_pos ⟨by simpa using hq0, by simp, by simp⟩]
  simp

lemma deltaPercent_new (o l : String) (r : ℚ) (hq : jsParseNumber o = some 0)
    (hr : jsParseNumber l = some r) (hr0 : r ≠ 0) :
    deltaPercent (some o) (some l) = "New" := by
  simp only [deltaPercent, hq, hr]
  rw [if_neg (by simp), if_pos (by simp [hr0])]

lemma deltaPercent_zero_nan (o l : String) (hq : jsParseNumber o = some 0)
    (hr : jsParseNumber l = none) :
    deltaPercent (some o) (some l) = "New" := by
  simp only [deltaPercent, hq, hr]
  rw [if_neg (by simp), if_pos (by simp)]

lemma deltaPercent_old_nan (o : String) (l : Option String)
    (hq : jsParseNumber o = none) : deltaPercent (some o) l = "-" := by
  rcases l with _ | t
  · rfl
  · simp only [deltaPercent, hq]
    rw [if_neg (by simp), if_neg (by simp)]

lemma deltaPercent_both_zero (o l : String) (hq : jsParseNumber o = some 0)
    (hr : jsParseNumber l = some 0) :
    deltaPercent (some o) (some l) = "-" := by
  simp only [deltaPercent, hq, hr]
  rw [if_neg (by simp), if_neg (by simp)]

lemma deltaPercent_lat_nan (o l : String) (q : ℚ) (hq : jsParseNumber o = some q)
    (hq0 : q ≠ 0) (hr : jsParseNumber l = none) :
    deltaPercent (some o) (some l) = "-" := by
  simp only [deltaPercent, hq, hr]
  rw [if_neg (by simp), if_neg (by simp [hq0])]

lemma dot_mem_mid (a b : String) : '.' ∈ (a ++ "." ++ b).data := by
  rw [String.data_append, String.data_append]
  exact List.mem_append.mpr (Or.inl (List.mem_append.mpr (Or.inr (by decide))))

lemma toFixedPos_one_dot (x : ℚ) : '.' ∈ (toFixedPos 1 x).data := by
  have h : toFixedPos 1 x =
      toString ((Rat.floor (x * (10 : ℚ) ^ (1 : ℕ) + 1 / 2)) / ((10 : ℤ) ^ (1 : ℕ))) ++ "." ++
        padZeros 1 (toString ((Rat.floor (x * (10 : ℚ) ^ (1 : ℕ) + 1 / 2)) % ((10 : ℤ) ^ (1 : ℕ)))) := rfl
  rw [h]
  exact dot_mem_mid _ _

lemma toFixedQ_one_dot (x : ℚ) : '.' ∈ (toFixedQ 1 x).data := by
  unfold toFixedQ
  split
  · rw [String.data_append]
    exact List.mem_append.mpr (Or.inr (toFixedPos_one_dot (-x)))
  · exact toFixedPos_one_dot x

lemma fmtDelta_dot (q : ℚ) : '.' ∈ (fmtDelta q).data := by
  unfold fmtDelta
  rw [String.data_append]
  exact List.mem_append.mpr
    (Or.inl (by rw [String.data_append]; exact List.mem_append.mpr (Or.inr (toFixedQ_one_dot q))))

lemma deltaPercent_shape (o l : Option String) :
    deltaPercent o l = "-" ∨ deltaPercent o l = "New" ∨
      ∃ q : ℚ, deltaPercent o l = fmtDelta q := by
  rcases o with _ | s
  · exact Or.inl (deltaPercent_none_left l)
  rcases l with _ | t
  · exact Or.inl (deltaPercent_none_right (some s))
  simp only [deltaPercent]
  split
  · exact Or.inr (Or.inr ⟨_, rfl⟩)
  · split
    · exact Or.inr (Or.inl rfl)
    · exact Or.inl rfl

lemma deltaPercent_ne_bad (o l : Option String) :
    deltaPercent o l ≠ "NaN%" ∧ deltaPercent o l ≠ "Infinity%" := by
  rcases deltaPercent_shape o l with h | h | ⟨q, h⟩ <;> rw [h]
  · exact ⟨by decide, by decide⟩
  · exact ⟨by decide, by decide⟩
  · constructor <;> intro hEq
    · have hd := fmtDelta_dot q
      rw [hEq] at hd
      exact absurd hd (by decide)
    · have hd := fmtDelta_dot q
      rw [hEq] at hd
      exact absurd hd (by decide)

/-- The C3 bucket keys: three dates. -/
def c3keys : List String := ["d1", "d2", "d3"]

/-- The C3 row: no value in the first bucket, 10 in the second, 15 in the
last. -/
def c3cell : String → Option String := fun k =>
  if k = "d2" then some "10" else if k = "d3" then some "15" else none

unseal Rat.add Rat.mul Rat.inv Rat.sub in
/-- C3 counterexample: on a row whose first bucket has no value (later
buckets 10 then 15), the trend delta of the PDF export — which reads the FIRST
bucket of the list, not the earliest defined one — renders `"-"`, while
the claimed earliest-defined rule yields `"+50.0%"`. -/
theorem C3_counterexample :
    pdfRowDelta c3keys c3cell = "-" ∧
    deltaPercent (oldestDefined c3keys c3cell) (latestCell c3keys c3cell) = "+50.0%" ∧
    pdfRowDelta c3keys c3cell ≠
      deltaPercent (oldestDefined c3keys c3cell) (latestCell c3keys c3cell) := by
  refine ⟨by decide, by decide, ?_⟩
  intro h
  have h1 : pdfRowDelta c3keys c3cell = "-" := by decide
  have h2 : deltaPercent (oldestDefined c3keys c3cell) (latestCell c3keys c3cell) =
      "+50.0%" := by decide
  rw [h1, h2] at h
  exact absurd h (by decide)

/-- C3 (amended): the on-screen trend view computes the percent-change
cell from the earliest bucket with a defined value and the last bucket of
the full list — `((latest-earliest)/earliest)*100` to one decimal with an
explicit leading `+` when positive, `"New"` when the earliest is 0 and
the latest nonzero, `"-"` when either endpoint is undefined — while the
PDF export instead reads the first bucket of the list, so a row with no
value in the first bucket renders `"-"` there even when later buckets
have values. -/
theorem C3_amended_delta (keys : List String) (cell : String → Option String) :
    (∀ o l q r, oldestDefined keys cell = some o → jsParseNumber o = some q → q ≠ 0 →
      latestCell keys cell = some l → jsParseNumber l = some r →
      rowDelta keys cell = fmtDelta ((r - q) / q * 100)) ∧
    (∀ o l r, oldestDefined keys cell = some o → jsParseNumber o = some 0 →
      latestCell keys cell = some l → jsParseNumber l = some r → r ≠ 0 →
      rowDelta keys cell = "New") ∧
    (oldestDefined keys cell = none → rowDelta keys cell = "-") ∧
    (latestCell keys cell = none → rowDelta keys cell = "-") ∧
    (∀ k0, keys.head? = some k0 → cell k0 = none → pdfRowDelta keys cell = "-") := by
  refine ⟨fun o l q r hOld hpo hq0 hLat hpl => ?_, fun o l r hOld hpo hLat hpl hr0 => ?_,
    fun hOld => ?_, fun hLat => ?_, fun k0 hk hc => ?_⟩
  · unfold rowDelta
    rw [hOld, hLat]
    exact deltaPercent_fmt o l q r hpo hq0 hpl
  · unfold rowDelta
    rw [hOld, hLat]
    exact deltaPercent_new o l r hpo hpl hr0
  · unfold rowDelta
    rw [hOld]
    exact deltaPercent_none_left _
  · unfold rowDelta
    rw [hLat]
    exact deltaPercent_none_right _
  · unfold pdfRowDelta
    rw [hk]
    show deltaPercent (cell k0) (latestCell keys cell) = "-"
    rw [hc]
    exact deltaPercent_none_left _

unseal Rat.add Rat.mul Rat.inv Rat.sub in
/-- C3 witness: on the concrete row (undefined, 10, 15), the claim
theorem yields the formatted delta, which evaluates to `"+50.0%"`; a row
with earliest 0 and latest 5 yields `"New"`, and a row with only one
defined value yields `"-"`. -/
theorem C3_witness :
    (rowDelta c3keys c3cell = fmtDelta (((15 : ℚ) - 10) / 10 * 100)) ∧
    (fmtDelta (((15 : ℚ) - 10) / 10 * 100) = "+50.0%") ∧
    (rowDelta ["d1", "d2"] (fun k => if k = "d1" then some "0" else some "5") = "New") ∧
    (rowDelta ["d1", "d2"] (fun k => if k = "d1" then some "10" else none) = "-") :=
  ⟨(C3_amended_delta c3keys c3cell).1 "10" "15" 10 15 (by decide) (by decide)
      (by norm_num) (by decide) (by decide),
   by decide, by decide, by decide⟩

/-- The C10 row: earliest bucket `"0.00"`, latest the sentinel `"N/A"`. -/
def c10cell : String → Option String := fun k =>
  if k = "d1" then some "0.00" else if k = "d2" then some "N/A" else none

unseal Rat.add Rat.mul Rat.inv Rat.sub in
/-- C10 counterexample: when the earliest endpoint parses to 0 and the
latest does not parse (`Number("N/A")` is `NaN`, and `NaN !== 0` is
true), the `else if (ov === 0 && lv !== 0)` branch fires and the cell is
`"New"`, not `"-"` as claimed. -/
theorem C10_counterexample :
    jsParseNumber "N/A" = none ∧
    rowDelta ["d1", "d2"] c10cell = "New" ∧
    rowDelta ["d1", "d2"] c10cell ≠ "-" := by
  refine ⟨by decide, by decide, ?_⟩
  intro h
  have h1 : rowDelta ["d1", "d2"] c10cell = "New" := by decide
  rw [h1] at h
  exact absurd h (by decide)

/-- C10 (amended): a non-parsing EARLIEST endpoint gives `"-"`, both
endpoints parsing to 0 gives `"-"`, and a non-parsing latest endpoint
gives `"-"` when the earliest is nonzero but `"New"` when the earliest
parses to 0; in every case the rendered delta string is never `"NaN%"`
or `"Infinity%"`. -/
theorem C10_amended_guard (keys : List String) (cell : String → Option String) :
    (∀ s, oldestDefined keys cell = some s → jsParseNumber s = none →
      rowDelta keys cell = "-") ∧
    (∀ s t, oldestDefined keys cell = some s → jsParseNumber s = some 0 →
      latestCell keys cell = some t → jsParseNumber t = some 0 →
      rowDelta keys cell = "-") ∧
    (∀ s t q, oldestDefined keys cell = some s → jsParseNumber s = some q → q ≠ 0 →
      latestCell keys cell = some t → jsParseNumber t = none →
      rowDelta keys cell = "-") ∧
    (∀ s t, oldestDefined keys cell = some s → jsParseNumber s = some 0 →
      latestCell keys cell = some t → jsParseNumber t = none →
      rowDelta keys cell = "New") ∧
    rowDelta keys cell ≠ "NaN%" ∧ rowDelta keys cell ≠ "Infinity%" := by
  refine ⟨fun s hOld hps => ?_, fun s t hOld hps hLat hpt => ?_,
    fun s t q hOld hps hq0 hLat hpt => ?_, fun s t hOld hps hLat hpt => ?_, ?_, ?_⟩
  · unfold rowDelta
    rw [hOld]
    exact deltaPercent_old_nan s _ hps
  · unfold rowDelta
    rw [hOld, hLat]
    exact deltaPercent_both_zero s t hps hpt
  · unfold rowDelta
    rw [hOld, hLat]
    exact deltaPercent_lat_nan s t q hps hq0 hpt
  · unfold rowDelta
    rw [hOld, hLat]
    exact deltaPercent_zero_nan s t hps hpt
  · unfold rowDelta
    exact (deltaPercent_ne_bad _ _).1
  · unfold rowDelta
    exact (deltaPercent_ne_bad _ _).2

/-- C10 witness: on the concrete row for the third clause — earliest
`"10"`, latest `"N/A"` — the claim theorem renders `"-"`; the safety
clauses hold on the counterexample row as well. -/
theorem C10_witness :
    (rowDelta ["d1", "d2"] (fun k => if k = "d1" then some "10" else some "N/A") = "-") ∧
    (rowDelta ["d1", "d2"] c10cell ≠ "NaN%") :=
  ⟨(C10_amended_guard ["d1", "d2"]
      (fun k => if k = "d1" then some "10" else some "N/A")).2.2.1 "10" "N/A" 10
      (by decide) (by decide) (by norm_num) (by decide) (by decide),
   (C10_amended_guard ["d1", "d2"] c10cell).2.2.2.2.1⟩
